import Mathlib

/-!
Shallow embedding of the BISE Sargodha result scraper (src/app.py) and
verification of its specification claims.

The program has four parts: get_tokens (GET the results page and read two
hidden anti-forgery fields), fetch_one_roll (POST one roll number and parse
the response inside a try/except that converts every exception into an error
record), save_summary_pdf (build a title plus a table with a fixed header row
and one row per record), and a driver loop over an inclusive roll-number
range. Network behaviour is modelled by a connection context carrying the
results of the GET and POST calls, where an error value stands for a raised
exception (timeout, parse failure, and so on).
-/

/-- A Python value appearing in a lookup record or table cell: the program
stores either an integer (the raw input roll number on the error branches) or
a string. -/
inductive PyVal where
  | int (n : Int) : PyVal
  | str (s : String) : PyVal
  deriving DecidableEq, Repr

/-- A lookup record: a Python dict modelled as an ordered association list of
keys to values. -/
abbrev Dict := List (String × PyVal)

/-- Models Python str.strip with no arguments, the effect of
get_text(strip=True) in the source: remove leading and trailing whitespace. -/
def pstrip (s : String) : String :=
  ⟨((s.data.dropWhile Char.isWhitespace).reverse.dropWhile Char.isWhitespace).reverse⟩

/-- The fixed results-page URL, constant BASE in app.py. -/
def BASE : String := "http://119.159.230.2/biseresultday2/resultday.aspx"

/-- The parsed token page returned by a GET of BASE: value of each of the two
hidden fields __VIEWSTATE and __EVENTVALIDATION when its element is found,
none when select_one finds no element (so the subscript access in the source
would raise). -/
structure TokenPage where
  viewstate : Option String
  eventvalidation : Option String
  deriving DecidableEq, Repr

/-- The parsed response page of the form submission: the raw text of each of
the four labelled elements LblErr, LblName, LblRollNo and lblGazres, each
possibly absent; stripping is applied at the point of use, as in the source. -/
structure ResultPage where
  lblErr : Option String
  lblName : Option String
  lblRollNo : Option String
  lblGazres : Option String
  deriving DecidableEq, Repr

/-- A connection context: the behaviour of the two network calls the program
makes on it. An error value models the call, or the parsing of its response,
raising an exception carrying that message. The POST behaviour may depend on
the submitted form data and on the request headers. -/
structure Conn where
  getPage : Except String TokenPage
  postPage : List (String × String) → List (String × String) → Except String ResultPage

/-- The message of the exception Python raises when a missing element, a None
returned by select_one, is subscripted for its value attribute. -/
def noneSubscriptErr : String := "TypeError: NoneType object is not subscriptable"

/-- get_tokens from app.py: GET the results page, read the two hidden
anti-forgery fields, and return them as a pair; any failure, of the network
call or of either field lookup, propagates as an exception. -/
def get_tokens (session : Conn) : Except String (String × String) :=
  match session.getPage with
  | .error e => .error e
  | .ok page =>
    match page.viewstate with
    | none => .error noneSubscriptErr
    | some vs =>
      match page.eventvalidation with
      | none => .error noneSubscriptErr
      | some ev => .ok (vs, ev)

/-- The form payload built by fetch_one_roll, in source order. -/
def payload (viewstate eventvalidation : String) (roll_no : Int) : List (String × String) :=
  [("__VIEWSTATE", viewstate),
   ("__EVENTVALIDATION", eventvalidation),
   ("__EVENTTARGET", ""),
   ("__EVENTARGUMENT", ""),
   ("RbtSearchType", "Search by Roll No."),
   ("TxtSearchText", toString roll_no),
   ("BtnShowResults", "Show Result")]

/-- The request headers of the form submission. -/
def headers : List (String × String) :=
  [("User-Agent", "Mozilla/5.0"), ("Referer", BASE)]

/-- Text of an optional element with a default: the source pattern
tag.get_text(strip=True) if tag else default. -/
def tagText (t : Option String) (dflt : String) : String :=
  match t with
  | some u => pstrip u
  | none => dflt

/-- The record built on the success branch of fetch_one_roll: name, displayed
roll number falling back to the input roll number as text, and result, with
name and result defaulting to empty text when their element is absent. -/
def successRecord (soup : ResultPage) (roll_no : Int) : Dict :=
  [("Roll No", PyVal.str (tagText soup.lblRollNo (toString roll_no))),
   ("Name", PyVal.str (tagText soup.lblName "")),
   ("Result", PyVal.str (tagText soup.lblGazres ""))]

/-- The record built on the explicit-error branch of fetch_one_roll: the raw
input roll number, an empty name, and the stripped error text as result. -/
def errFieldRecord (roll_no : Int) (t : String) : Dict :=
  [("Roll No", PyVal.int roll_no), ("Name", PyVal.str ""), ("Result", PyVal.str (pstrip t))]

/-- The record built by the exception handler of fetch_one_roll: the raw
input roll number, an empty name, and the formatted exception message. -/
def errorRecord (roll_no : Int) (e : String) : Dict :=
  [("Roll No", PyVal.int roll_no), ("Name", PyVal.str ""), ("Result", PyVal.str ("Error: " ++ e))]

/-- The body of the try block of fetch_one_roll: fetch tokens, submit the
form, then branch on the error element; an error value is a raised
exception reaching the except clause. -/
def fetch_body (session : Conn) (roll_no : Int) : Except String Dict :=
  match get_tokens session with
  | .error e => .error e
  | .ok (viewstate, eventvalidation) =>
    match session.postPage (payload viewstate eventvalidation roll_no) headers with
    | .error e => .error e
    | .ok soup =>
      match soup.lblErr with
      | some t =>
        if pstrip t ≠ "" then .ok (errFieldRecord roll_no t)
        else .ok (successRecord soup roll_no)
      | none => .ok (successRecord soup roll_no)

/-- fetch_one_roll from app.py: run the try-block body and convert any
exception into an error record; total, every call returns exactly one
record. -/
def fetch_one_roll (session : Conn) (roll_no : Int) : Dict :=
  match fetch_body session roll_no with
  | .ok d => d
  | .error e => errorRecord roll_no e

/-- Python dict .get(key, empty string) on an association-list dict: the
first binding of the key, defaulting to empty text. -/
def dictGet (d : Dict) (k : String) : PyVal :=
  match d with
  | [] => PyVal.str ""
  | (k2, v) :: rest => if k2 = k then v else dictGet rest k

/-- The document produced by save_summary_pdf: its title line, its table of
cell values, and the destination filename. -/
structure PdfDoc where
  title : String
  rows : List (List PyVal)
  filename : String
  deriving DecidableEq, Repr

/-- The table row built from one record by save_summary_pdf, via entry.get
with an empty-text default. -/
def rowOf (entry : Dict) : List PyVal :=
  [dictGet entry "Roll No", dictGet entry "Name", dictGet entry "Result"]

/-- save_summary_pdf from app.py: the fixed title, then the fixed header row
followed by one row per record in input order, at the given filename. -/
def save_summary_pdf (data_list : List Dict) (filename : String) : PdfDoc :=
  { title := "BISE Sargodha Exam Results (Summary)",
    rows := [PyVal.str "Roll No", PyVal.str "Name", PyVal.str "Final Result"]
              :: data_list.map rowOf,
    filename := filename }

/-- Python range over integers: the integers from a up to but excluding b in
ascending order, empty when b is at most a. -/
def pyRange (a b : Int) : List Int :=
  (List.range (b - a).toNat).map (fun (i : Nat) => a + (i : Int))

/-- The driver loop of app.py: iterate the roll numbers in order, fetching
one record per roll number and appending it to the accumulator. -/
def driver_loop (session : Conn) (rns : List Int) (acc : List Dict) : List Dict :=
  match rns with
  | [] => acc
  | rn :: rest => driver_loop session rest (acc ++ [fetch_one_roll session rn])

/-- The observable outcome of a whole run: the accumulated records and the
document handed to save_summary_pdf. -/
structure RunOutput where
  records : List Dict
  pdf : PdfDoc
  deriving DecidableEq, Repr

/-- The main script of app.py with its two bounds as parameters: run the
driver loop over range(start_roll, end_roll + 1) starting from an empty
accumulator, then save the summary PDF of the full accumulator at the fixed
output name. -/
def driver_run (session : Conn) (start_roll end_roll : Int) : RunOutput :=
  let results := driver_loop session (pyRange start_roll (end_roll + 1)) []
  { records := results, pdf := save_summary_pdf results "bise_results_summary.pdf" }

/-- A connection whose GET call always times out, so every token fetch
raises. -/
def timeoutConn : Conn :=
  { getPage := .error "HTTPConnectionPool read timed out",
    postPage := fun _ _ => .error "HTTPConnectionPool read timed out" }

/-- A connection answering both calls successfully with the given token page
and result page. -/
def mkConn (tp : TokenPage) (rp : ResultPage) : Conn :=
  { getPage := .ok tp, postPage := fun _ _ => .ok rp }

/-- A token page carrying both hidden fields. -/
def goodTokens : TokenPage := { viewstate := "VS", eventvalidation := "EV" }

/-- A token page whose viewstate element is missing. -/
def noVsTokens : TokenPage := { viewstate := none, eventvalidation := some "EV" }

/-- A token page whose eventvalidation element is missing. -/
def noEvTokens : TokenPage := { viewstate := some "VS", eventvalidation := none }

/-- A response page whose error element is present and non-empty, together
with populated name, roll and result elements. -/
def errPage : ResultPage :=
  { lblErr := some "Invalid Roll Number", lblName := some "Ali Khan",
    lblRollNo := some "763130", lblGazres := some "900" }

/-- A response page with no error element and all three data elements
present. -/
def okPage : ResultPage :=
  { lblErr := none, lblName := some "Ali Khan",
    lblRollNo := some "763130", lblGazres := some "Passed with 850 marks" }

/-- A response page with no error element and no data elements. -/
def emptyPage : ResultPage :=
  { lblErr := none, lblName := none, lblRollNo := none, lblGazres := none }

/-- Unfolding lemma: the driver loop appends one fetched record per roll
number in order. -/
theorem driver_loop_eq_append (session : Conn) (rns : List Int) (acc : List Dict) :
    driver_loop session rns acc = acc ++ rns.map (fetch_one_roll session) := by
  induction rns generalizing acc with
  | nil => simp [driver_loop]
  | cons rn rest ih => simp [driver_loop, ih]

/-- Length of a Python range. -/
theorem pyRange_length (a b : Int) : (pyRange a b).length = (b - a).toNat := by
  rw [pyRange, List.length_map, List.length_range]

/-- Elements of a Python range. -/
theorem pyRange_getElem? (a b : Int) (i : Nat) :
    (pyRange a b)[i]? = if i < (b - a).toNat then some (a + i) else none := by
  rw [pyRange, List.getElem?_map]
  by_cases h : i < (b - a).toNat
  · rw [List.getElem?_range h, if_pos h]
    rfl
  · rw [if_neg h, List.getElem?_eq_none]
    · rfl
    · simpa using Nat.le_of_not_lt h

/-- Characterisation of the exceptions escaping the body of the try block:
exactly the token-fetch failures and the form-submission failures. -/
theorem fetch_body_error_iff (session : Conn) (roll_no : Int) (e : String) :
    fetch_body session roll_no = .error e ↔
      (get_tokens session = .error e ∨
        ∃ vs ev, get_tokens session = .ok (vs, ev) ∧
          session.postPage (payload vs ev roll_no) headers = .error e) := by
  unfold fetch_body
  cases hg : get_tokens session with
  | error e2 => simp
  | ok p =>
    obtain ⟨vs0, ev0⟩ := p
    dsimp only
    cases hp : session.postPage (payload vs0 ev0 roll_no) headers with
    | error e2 =>
      dsimp only
      constructor
      · intro h
        injection h with he2
        exact Or.inr ⟨vs0, ev0, rfl, by rw [hp, he2]⟩
      · rintro (h | ⟨vs, ev, hok, h⟩)
        · exact absurd h (by simp)
        · obtain ⟨rfl, rfl⟩ : vs0 = vs ∧ ev0 = ev := by simpa using hok
          have h2 := hp.symm.trans h
          injection h2 with he2
          rw [he2]
    | ok soup =>
      cases he : soup.lblErr with
      | none => simp [he, hp]
      | some t =>
        by_cases ht : pstrip t = "" <;> simp [he, ht, hp]

/-- The error branch of the try/except: an exception in the body becomes the
error record. -/
theorem fetch_one_roll_error (session : Conn) (roll_no : Int) (e : String)
    (h : fetch_body session roll_no = .error e) :
    fetch_one_roll session roll_no = errorRecord roll_no e := by
  unfold fetch_one_roll
  rw [h]

/-- The explicit-error branch: a present, non-empty error element yields the
error-field record. -/
theorem fetch_one_roll_errField (session : Conn) (roll_no : Int)
    (vs ev : String) (soup : ResultPage) (t : String)
    (hg : get_tokens session = .ok (vs, ev))
    (hp : session.postPage (payload vs ev roll_no) headers = .ok soup)
    (he : soup.lblErr = some t) (ht : pstrip t ≠ "") :
    fetch_one_roll session roll_no = errFieldRecord roll_no t := by
  unfold fetch_one_roll fetch_body
  rw [hg]
  dsimp only
  rw [hp]
  dsimp only
  rw [he]
  dsimp only
  rw [if_pos ht]

/-- The success branch: an absent or blank error element yields the success
record. -/
theorem fetch_one_roll_success (session : Conn) (roll_no : Int)
    (vs ev : String) (soup : ResultPage)
    (hg : get_tokens session = .ok (vs, ev))
    (hp : session.postPage (payload vs ev roll_no) headers = .ok soup)
    (he : soup.lblErr = none ∨ ∃ t, soup.lblErr = some t ∧ pstrip t = "") :
    fetch_one_roll session roll_no = successRecord soup roll_no := by
  unfold fetch_one_roll fetch_body
  rw [hg]
  dsimp only
  rw [hp]
  dsimp only
  rcases he with he | ⟨t, he, ht⟩
  · rw [he]
  · rw [he]
    dsimp only
    rw [if_neg (by simp [ht])]

/-- Every successful body result is either the error-field record or the
success record of some response page. -/
theorem fetch_body_ok_shape (session : Conn) (roll_no : Int) (d : Dict)
    (h : fetch_body session roll_no = .ok d) :
    (∃ t, pstrip t ≠ "" ∧ d = errFieldRecord roll_no t) ∨
      (∃ soup, d = successRecord soup roll_no) := by
  unfold fetch_body at h
  cases hg : get_tokens session with
  | error e =>
    rw [hg] at h
    simp at h
  | ok p =>
    obtain ⟨vs, ev⟩ := p
    rw [hg] at h
    dsimp only at h
    cases hp : session.postPage (payload vs ev roll_no) headers with
    | error e =>
      rw [hp] at h
      simp at h
    | ok soup =>
      rw [hp] at h
      dsimp only at h
      cases he : soup.lblErr with
      | none =>
        rw [he] at h
        dsimp only at h
        injection h with h2
        exact Or.inr ⟨soup, h2.symm⟩
      | some t =>
        rw [he] at h
        dsimp only at h
        by_cases ht : pstrip t ≠ ""
        · rw [if_pos ht] at h
          injection h with h2
          exact Or.inl ⟨t, ht, h2.symm⟩
        · rw [if_neg ht] at h
          injection h with h2
          exact Or.inr ⟨soup, h2.symm⟩

/-- A one-element Python range. -/
theorem pyRange_single (a : Int) : pyRange a (a + 1) = [a] := by
  rw [pyRange]
  have h1 : (a + 1 - a).toNat = 1 := by omega
  rw [h1]
  have h2 : List.range 1 = [0] := rfl
  rw [h2, List.map_singleton]
  norm_num

/-- The records of a run are the mapped lookups of the roll-number range. -/
theorem driver_run_records (session : Conn) (start_roll end_roll : Int) :
    (driver_run session start_roll end_roll).records =
      (pyRange start_roll (end_roll + 1)).map (fetch_one_roll session) := by
  simp [driver_run, driver_loop_eq_append]

/-- C1: for every connection context and roll number, fetch_one_roll returns
exactly one record and never raises; any exception arising from the token
fetch or the form submission is caught and converted into a record whose Name
is empty and whose Result is an error description beginning with the error
indicator. -/
theorem c1_lookup_total_and_contained (session : Conn) (roll_no : Int) :
    (∃! d : Dict, fetch_one_roll session roll_no = d) ∧
    ∀ e : String,
      (get_tokens session = .error e ∨
        ∃ vs ev, get_tokens session = .ok (vs, ev) ∧
          session.postPage (payload vs ev roll_no) headers = .error e) →
      fetch_one_roll session roll_no = errorRecord roll_no e ∧
      dictGet (fetch_one_roll session roll_no) "Name" = PyVal.str "" ∧
      ∃ msg, dictGet (fetch_one_roll session roll_no) "Result" = PyVal.str msg ∧
        "Error: ".data <+: msg.data := by
  refine ⟨⟨fetch_one_roll session roll_no, rfl, fun y hy => hy.symm⟩, ?_⟩
  intro e he
  have hb : fetch_body session roll_no = .error e :=
    (fetch_body_error_iff session roll_no e).mpr he
  have hf := fetch_one_roll_error session roll_no e hb
  refine ⟨hf, ?_, "Error: " ++ e, ?_, ?_⟩
  · rw [hf]
    rfl
  · rw [hf]
    rfl
  · rw [String.data_append]
    exact List.prefix_append _ _

/-- C1 witness: a timed-out token fetch at roll number 123456 yields the
contained error record. -/
theorem c1_witness :
    fetch_one_roll timeoutConn 123456 =
      errorRecord 123456 "HTTPConnectionPool read timed out" ∧
    dictGet (fetch_one_roll timeoutConn 123456) "Name" = PyVal.str "" := by
  have h := (c1_lookup_total_and_contained timeoutConn 123456).2
    "HTTPConnectionPool read timed out" (Or.inl rfl)
  exact ⟨h.1, h.2.1⟩

/-- C3: when the server response carries a present, non-empty error element,
the record has the empty string as Name and the stripped error text as
Result, whatever the name, roll and result elements of the response hold. -/
theorem c3_error_field_wins (session : Conn) (roll_no : Int)
    (vs ev : String) (soup : ResultPage) (t : String)
    (hg : get_tokens session = .ok (vs, ev))
    (hp : session.postPage (payload vs ev roll_no) headers = .ok soup)
    (he : soup.lblErr = some t) (ht : pstrip t ≠ "") :
    fetch_one_roll session roll_no =
      [("Roll No", PyVal.int roll_no), ("Name", PyVal.str ""),
       ("Result", PyVal.str (pstrip t))] :=
  fetch_one_roll_errField session roll_no vs ev soup t hg hp he ht

/-- C3 witness: a page with error text Invalid Roll Number and populated
name, roll and result elements still yields the error-shaped record. -/
theorem c3_witness :
    fetch_one_roll (mkConn goodTokens errPage) 123456 =
      [("Roll No", PyVal.int 123456), ("Name", PyVal.str ""),
       ("Result", PyVal.str "Invalid Roll Number")] := by
  have h := c3_error_field_wins (mkConn goodTokens errPage) 123456 "VS" "EV"
    errPage "Invalid Roll Number" rfl rfl rfl (by decide)
  exact h

/-- C4: with no error element, or a blank one, the record is built from the
name, displayed-roll and result elements, the displayed roll falling back to
the input roll number as text and the other two fields to empty text. -/
theorem c4_success_fields (session : Conn) (roll_no : Int)
    (vs ev : String) (soup : ResultPage)
    (hg : get_tokens session = .ok (vs, ev))
    (hp : session.postPage (payload vs ev roll_no) headers = .ok soup)
    (he : soup.lblErr = none ∨ ∃ t, soup.lblErr = some t ∧ pstrip t = "") :
    fetch_one_roll session roll_no =
      [("Roll No", PyVal.str (tagText soup.lblRollNo (toString roll_no))),
       ("Name", PyVal.str (tagText soup.lblName "")),
       ("Result", PyVal.str (tagText soup.lblGazres ""))] :=
  fetch_one_roll_success session roll_no vs ev soup hg hp he

/-- C4 witness: a page with no error element and no data elements yields the
all-defaults record, the roll number echoed back as text. -/
theorem c4_witness :
    fetch_one_roll (mkConn goodTokens emptyPage) 123456 =
      [("Roll No", PyVal.str "123456"), ("Name", PyVal.str ""),
       ("Result", PyVal.str "")] := by
  have h := c4_success_fields (mkConn goodTokens emptyPage) 123456 "VS" "EV"
    emptyPage rfl rfl (Or.inl rfl)
  exact h

/-- C8: on every branch, the record returned by fetch_one_roll has exactly
the three keys Roll No, Name and Result, in that order and no others. -/
theorem c8_record_keys (session : Conn) (roll_no : Int) :
    (fetch_one_roll session roll_no).map Prod.fst = ["Roll No", "Name", "Result"] := by
  unfold fetch_one_roll
  cases hb : fetch_body session roll_no with
  | error e => simp [errorRecord]
  | ok d =>
    rcases fetch_body_ok_shape session roll_no d hb with ⟨t, _, rfl⟩ | ⟨soup, rfl⟩ <;>
      simp [errFieldRecord, successRecord]

/-- C9: the Roll No field is the raw integer input on the explicit-error
branch and on the exception branch, and is a text value derived from the
page, with textual fallback to the input, only on the success branch. -/
theorem c9_roll_no_per_branch (session : Conn) (roll_no : Int) :
    (∀ e, fetch_body session roll_no = .error e →
      dictGet (fetch_one_roll session roll_no) "Roll No" = PyVal.int roll_no) ∧
    (∀ vs ev soup t, get_tokens session = .ok (vs, ev) →
      session.postPage (payload vs ev roll_no) headers = .ok soup →
      soup.lblErr = some t → pstrip t ≠ "" →
      dictGet (fetch_one_roll session roll_no) "Roll No" = PyVal.int roll_no) ∧
    (∀ vs ev soup, get_tokens session = .ok (vs, ev) →
      session.postPage (payload vs ev roll_no) headers = .ok soup →
      (soup.lblErr = none ∨ ∃ t, soup.lblErr = some t ∧ pstrip t = "") →
      dictGet (fetch_one_roll session roll_no) "Roll No" =
        PyVal.str (tagText soup.lblRollNo (toString roll_no))) := by
  refine ⟨?_, ?_, ?_⟩
  · intro e h
    rw [fetch_one_roll_error session roll_no e h]
    rfl
  · intro vs ev soup t hg hp he ht
    rw [fetch_one_roll_errField session roll_no vs ev soup t hg hp he ht]
    rfl
  · intro vs ev soup hg hp he
    rw [fetch_one_roll_success session roll_no vs ev soup hg hp he]
    rfl

/-- C9 witness: the raw integer 5 on the exception and explicit-error
branches, the page text on the success branch. -/
theorem c9_witness :
    dictGet (fetch_one_roll timeoutConn 5) "Roll No" = PyVal.int 5 ∧
    dictGet (fetch_one_roll (mkConn goodTokens errPage) 5) "Roll No" = PyVal.int 5 ∧
    dictGet (fetch_one_roll (mkConn goodTokens okPage) 5) "Roll No" =
      PyVal.str "763130" := by
  refine ⟨(c9_roll_no_per_branch timeoutConn 5).1 _ rfl,
    (c9_roll_no_per_branch (mkConn goodTokens errPage) 5).2.1 "VS" "EV" errPage
      "Invalid Roll Number" rfl rfl rfl (by decide), ?_⟩
  have h := (c9_roll_no_per_branch (mkConn goodTokens okPage) 5).2.2 "VS" "EV"
    okPage rfl rfl (Or.inl rfl)
  exact h

/-- C5: for every input list of records the table has the fixed header row
first, then exactly one data row per record in input order, so it has one
more row than there are records. -/
theorem c5_summary_table_shape (data_list : List Dict) (filename : String) :
    (save_summary_pdf data_list filename).rows.length = data_list.length + 1 ∧
    (save_summary_pdf data_list filename).rows.head? =
      some [PyVal.str "Roll No", PyVal.str "Name", PyVal.str "Final Result"] ∧
    ∀ i : Nat, (save_summary_pdf data_list filename).rows[i + 1]? =
      (data_list[i]?).map rowOf := by
  refine ⟨?_, rfl, ?_⟩
  · simp [save_summary_pdf]
  · intro i
    simp [save_summary_pdf]

/-- C6: the driver visits every integer of the inclusive range once in
ascending order, one lookup per integer appended in that order, hands the
report writer the full accumulator, and performs exactly one lookup when the
bounds coincide. -/
theorem c6_driver_visits_range (session : Conn) (start_roll end_roll : Int)
    (h : start_roll ≤ end_roll) :
    (driver_run session start_roll end_roll).records.length =
      (end_roll - start_roll + 1).toNat ∧
    (∀ i : Nat, i < (end_roll - start_roll + 1).toNat →
      (driver_run session start_roll end_roll).records[i]? =
        some (fetch_one_roll session (start_roll + i))) ∧
    (driver_run session start_roll end_roll).pdf =
      save_summary_pdf (driver_run session start_roll end_roll).records
        "bise_results_summary.pdf" ∧
    (start_roll = end_roll →
      (driver_run session start_roll end_roll).records =
        [fetch_one_roll session start_roll]) := by
  refine ⟨?_, ?_, rfl, ?_⟩
  · rw [driver_run_records, List.length_map, pyRange_length]
    omega
  · intro i hi
    rw [driver_run_records, List.getElem?_map, pyRange_getElem?,
      if_pos (by omega : i < (end_roll + 1 - start_roll).toNat)]
    rfl
  · intro heq
    subst heq
    rw [driver_run_records, pyRange_single, List.map_singleton]

/-- C6 witness: with coinciding bounds the run holds exactly the one record
of the single lookup. -/
theorem c6_witness :
    (driver_run (mkConn goodTokens okPage) 123456 123456).records.length = 1 ∧
    (driver_run (mkConn goodTokens okPage) 123456 123456).records =
      [fetch_one_roll (mkConn goodTokens okPage) 123456] := by
  have h := c6_driver_visits_range (mkConn goodTokens okPage) 123456 123456
    (le_refl 123456)
  exact ⟨h.1.trans (by decide), h.2.2.2 rfl⟩

/-- C7: get_tokens propagates the exception of a failed GET unchanged, raises
when either hidden field is absent, and on success returns exactly the two
field values of the fetched page, with no fallback. -/
theorem c7_get_tokens_propagates (session : Conn) :
    (∀ e, session.getPage = .error e → get_tokens session = .error e) ∧
    (∀ tp, session.getPage = .ok tp → tp.viewstate = none →
      get_tokens session = .error noneSubscriptErr) ∧
    (∀ tp vs, session.getPage = .ok tp → tp.viewstate = some vs →
      tp.eventvalidation = none → get_tokens session = .error noneSubscriptErr) ∧
    (∀ vs ev, get_tokens session = .ok (vs, ev) →
      ∃ tp, session.getPage = .ok tp ∧ tp.viewstate = some vs ∧
        tp.eventvalidation = some ev) := by
  refine ⟨?_, ?_, ?_, ?_⟩
  · intro e h
    unfold get_tokens
    rw [h]
  · intro tp h hv
    unfold get_tokens
    rw [h]
    dsimp only
    rw [hv]
  · intro tp vs h hv hev
    unfold get_tokens
    rw [h]
    dsimp only
    rw [hv]
    dsimp only
    rw [hev]
  · intro vs ev h
    unfold get_tokens at h
    cases hg : session.getPage with
    | error e =>
      rw [hg] at h
      simp at h
    | ok tp =>
      rw [hg] at h
      dsimp only at h
      cases hv : tp.viewstate with
      | none =>
        rw [hv] at h
        simp at h
      | some vs2 =>
        rw [hv] at h
        dsimp only at h
        cases hev : tp.eventvalidation with
        | none =>
          rw [hev] at h
          simp at h
        | some ev2 =>
          rw [hev] at h
          dsimp only at h
          injection h with h2
          obtain ⟨rfl, rfl⟩ : vs2 = vs ∧ ev2 = ev := by simpa using h2
          exact ⟨tp, rfl, hv, hev⟩

/-- C7 witness: a timed-out GET propagates its message, each missing hidden
field raises, and a successful fetch returns exactly the page's two field
values. -/
theorem c7_witness :
    get_tokens timeoutConn = .error "HTTPConnectionPool read timed out" ∧
    get_tokens (mkConn noVsTokens okPage) = .error noneSubscriptErr ∧
    get_tokens (mkConn noEvTokens okPage) = .error noneSubscriptErr ∧
    ∃ tp, (mkConn goodTokens okPage).getPage = .ok tp ∧
      tp.viewstate = some "VS" ∧ tp.eventvalidation = some "EV" := by
  refine ⟨(c7_get_tokens_propagates timeoutConn).1 _ rfl,
    (c7_get_tokens_propagates (mkConn noVsTokens okPage)).2.1 noVsTokens rfl rfl,
    (c7_get_tokens_propagates (mkConn noEvTokens okPage)).2.2.1 noEvTokens "VS"
      rfl rfl rfl,
    (c7_get_tokens_propagates (mkConn goodTokens okPage)).2.2.2 "VS" "EV" rfl⟩

/-- C10: with an inverted range the driver performs zero lookups, and the
report writer still runs on the empty list, producing a header-only table. -/
theorem c10_empty_range (session : Conn) (start_roll end_roll : Int)
    (h : end_roll < start_roll) :
    (driver_run session start_roll end_roll).records = [] ∧
    (driver_run session start_roll end_roll).pdf.rows =
      [[PyVal.str "Roll No", PyVal.str "Name", PyVal.str "Final Result"]] := by
  have hr : pyRange start_roll (end_roll + 1) = [] := by
    rw [pyRange]
    have h1 : (end_roll + 1 - start_roll).toNat = 0 := by omega
    rw [h1]
    rfl
  refine ⟨?_, ?_⟩
  · rw [driver_run_records, hr]
    rfl
  · have h2 := driver_run_records session start_roll end_roll
    rw [hr] at h2
    show (save_summary_pdf (driver_run session start_roll end_roll).records
      "bise_results_summary.pdf").rows = _
    rw [h2]
    rfl

/-- C10 witness: the run from 7 down to 3 collects no records and emits the
header-only table. -/
theorem c10_witness :
    (driver_run timeoutConn 7 3).records = [] ∧
    (driver_run timeoutConn 7 3).pdf.rows =
      [[PyVal.str "Roll No", PyVal.str "Name", PyVal.str "Final Result"]] :=
  c10_empty_range timeoutConn 7 3 (by decide)

/-- C2 counterexample: the claim that the first token fetch of a run sits
outside the per-lookup containment fails on the code: with a connection whose
GET always times out, the single-element run starting at 123456 is not fatal;
the failed token fetch becomes an error record and the full document is still
produced. -/
theorem c2_counterexample :
    fetch_one_roll timeoutConn 123456 =
      errorRecord 123456 "HTTPConnectionPool read timed out" ∧
    (driver_run timeoutConn 123456 123456).records =
      [errorRecord 123456 "HTTPConnectionPool read timed out"] ∧
    (driver_run timeoutConn 123456 123456).pdf.rows.length = 2 :=
  ⟨rfl, rfl, rfl⟩

/-- C2 amended: every token-fetch call, the first of a run included, lies
inside the per-lookup failure containment: a token-fetch failure yields an
error record and the single-element run still completes with that record. -/
theorem c2_first_token_fetch_contained (session : Conn) (roll_no : Int)
    (e : String) (h : get_tokens session = .error e) :
    (driver_run session roll_no roll_no).records = [errorRecord roll_no e] := by
  have hb : fetch_body session roll_no = .error e :=
    (fetch_body_error_iff session roll_no e).mpr (Or.inl h)
  rw [driver_run_records, pyRange_single, List.map_singleton,
    fetch_one_roll_error session roll_no e hb]

/-- C2 amended witness: the timed-out connection at roll number 123456. -/
theorem c2_witness :
    (driver_run timeoutConn 123456 123456).records =
      [errorRecord 123456 "HTTPConnectionPool read timed out"] :=
  c2_first_token_fetch_contained timeoutConn 123456
    "HTTPConnectionPool read timed out" rfl
